import Mathlib

/-!
Shallow embedding of the swarm-foraging controller of this repository
(src/swarm.py, src/srobot.py, src/sim.py, src/constants.py).

Real-valued library collaborators (math.cos, math.sin, math.atan2,
math.sqrt, the float constant math.pi, and the pymunk per-step damping
factor) are kept abstract as fields of an `Env` record: every definition
below is parametric in them, and theorems that need trigonometric facts
take them as pointwise hypotheses discharged by concrete rational
witnesses.  All scalar arithmetic is exact rational arithmetic.

The pymunk space is embedded as the set of robot bodies owned by the
controller; `spaceStep` advances every body by one fixed tick
(position += dt * velocity, angle += dt * angular velocity, with the
damping factor applied), and carries an instrumentation counter of how
many times the physics collaborator was stepped.
-/

namespace Swarm

/-- Abstract external collaborators: trigonometric library functions,
`math.pi` (a rational in floating point), `math.sqrt`, and the pymunk
per-step damping factor. -/
structure Env where
  pi : ℚ
  cos : ℚ → ℚ
  sin : ℚ → ℚ
  atan2 : ℚ → ℚ → ℚ
  sqrt : ℚ → ℚ
  damp : ℚ

/-- constants.FPS -/
def FPS : ℚ := 60

/-- The fixed physics tick 1/constants.FPS used by every robot primitive. -/
def dtQ : ℚ := 1 / FPS

/-- constants.HOME_NEST_AREA -/
def homeNestArea : ℚ := 25

/-- Component-wise vector addition on 2-d rational vectors. -/
def vadd (a b : ℚ × ℚ) : ℚ × ℚ := (a.1 + b.1, a.2 + b.2)

/-- Component-wise vector subtraction. -/
def vsub (a b : ℚ × ℚ) : ℚ × ℚ := (a.1 - b.1, a.2 - b.2)

/-- Scalar multiplication of a 2-d vector. -/
def vscale (k : ℚ) (a : ℚ × ℚ) : ℚ × ℚ := (k * a.1, k * a.2)

/-- pymunk Vec2d.dot -/
def dotV (a b : ℚ × ℚ) : ℚ := a.1 * b.1 + a.2 * b.2

/-- pymunk Vec2d.get_length_sqrd -/
def sqnorm (a : ℚ × ℚ) : ℚ := a.1 * a.1 + a.2 * a.2

/-- pymunk Vec2d.cpvrotate: complex multiplication, `a` a rotation vector. -/
def rotV (a b : ℚ × ℚ) : ℚ × ℚ := (a.1 * b.1 - a.2 * b.2, a.1 * b.2 + a.2 * b.1)

/-- pymunk Vec2d.cpvunrotate: multiplication by the conjugate of `a`. -/
def unrotV (a b : ℚ × ℚ) : ℚ × ℚ := (a.1 * b.1 + a.2 * b.2, a.2 * b.1 - a.1 * b.2)

/-- Python `%` on rationals with a positive modulus: `a - m * ⌊a / m⌋`. -/
def qmod (a m : ℚ) : ℚ := a - m * ⌊a / m⌋

/-- SRobot.__normalize_angle and Simulation.__normalize_angle (identical in
the source): reduce mod 2π, then shift results above π down by 2π.
`pi` is the (rational) value of the float constant math.pi. -/
def normalize_angle (pi a : ℚ) : ℚ :=
  let r := qmod a (2 * pi)
  if pi < r then -(2 * pi - r) else r

/-- One robot body together with its attached range sensor's stored pose and
an instrumentation counter of how many times stop_move was invoked on it. -/
structure RobotState where
  pos : ℚ × ℚ
  angle : ℚ
  vel : ℚ × ℚ
  angVel : ℚ
  sensorPos : ℚ × ℚ
  sensorAngle : ℚ
  stopCalls : ℕ
  deriving DecidableEq

/-- swarm.SwarmState -/
inductive SwarmState where
  | NONE
  | ROTATION_MOVE
  | ROTATION_ROT
  | TRANSLATION_INI
  | TRANSLATION_STOP
  deriving DecidableEq

/-- swarm.SwarmController state: formation fields plus the robot bodies of the
shared pymunk space, modelled as a function from the robot's index (indices
at or above `swarmSize` are inert padding).  `stepCount` counts calls to
`space.step` made from inside robot primitives. -/
structure SwarmCtl where
  swarmSize : ℕ
  position : ℚ × ℚ
  angle : ℚ
  fSca : ℚ
  bAngle : ℚ
  robots : ℕ → RobotState
  rTargetPos : ℕ → ℚ × ℚ
  rDir : ℕ → ℤ
  vtras : ℚ
  vrot : ℚ
  state : SwarmState
  stateStart : ℚ
  stateCount : ℕ
  lastState : SwarmState
  stepCount : ℕ

/-- One pymunk integration step for a single body: damping is applied to the
velocities and the pose is advanced by one tick. -/
def stepBody (E : Env) (r : RobotState) : RobotState :=
  { r with vel := vscale E.damp r.vel,
           angVel := E.damp * r.angVel,
           pos := vadd r.pos (vscale dtQ (vscale E.damp r.vel)),
           angle := r.angle + dtQ * (E.damp * r.angVel) }

/-- space.step(1/constants.FPS): every body in the shared space advances. -/
def spaceStep (E : Env) (c : SwarmCtl) : SwarmCtl :=
  { c with robots := fun j => stepBody E (c.robots j),
           stepCount := c.stepCount + 1 }

/-- Replace the body of robot `i`. -/
def updR (c : SwarmCtl) (i : ℕ) (r : RobotState) : SwarmCtl :=
  { c with robots := Function.update c.robots i r }

/-- sensor.update_position(body.position, body.angle) of robot `i`. -/
def sensorUpd (c : SwarmCtl) (i : ℕ) : SwarmCtl :=
  updR c i { c.robots i with sensorPos := (c.robots i).pos,
                             sensorAngle := (c.robots i).angle }

/-- Velocity assignment of SRobot.move: the translational speed rotated into
the body frame. -/
def moveVel (E : Env) (vtras : ℚ) (r : RobotState) : RobotState :=
  { r with vel := rotV (E.cos r.angle, E.sin r.angle) (vtras, 0) }

/-- SRobot.move(vtras): the space is stepped first, then the velocity of this
body is set, then the sensor pose is refreshed. -/
def move (E : Env) (c : SwarmCtl) (i : ℕ) (vtras : ℚ) : SwarmCtl :=
  let c1 := spaceStep E c
  sensorUpd (updR c1 i (moveVel E vtras (c1.robots i))) i

/-- Velocity zeroing of SRobot.stop_move, with the instrumentation counter. -/
def stopVel (r : RobotState) : RobotState :=
  { r with vel := (0, 0), angVel := 0, stopCalls := r.stopCalls + 1 }

/-- SRobot.stop_move: zero the velocities, step the space, refresh sensor. -/
def stop_move (E : Env) (c : SwarmCtl) (i : ℕ) : SwarmCtl :=
  sensorUpd (spaceStep E (updR c i (stopVel (c.robots i)))) i

/-- Pose/velocity assignment of SRobot.move_to: the heading is snapped by the
angle of the unrotated target delta, then the body either stops (squared
distance below 0.5²) or drives at speed 10 along the new heading, the sign
chosen by the dot product with the new rotation vector. -/
def moveToVel (E : Env) (t : ℚ × ℚ) (r : RobotState) : RobotState :=
  let delta := vsub t r.pos
  let u := unrotV (E.cos r.angle, E.sin r.angle) delta
  let a2 := r.angle - E.atan2 u.2 u.1
  if sqnorm delta < (1 / 2 : ℚ) ^ 2 then
    { r with angle := a2, vel := (0, 0) }
  else
    { r with angle := a2,
             vel := rotV (E.cos a2, E.sin a2)
                      (10 * (if 0 < dotV delta (E.cos a2, E.sin a2) then (1 : ℚ) else -1), 0) }

/-- SRobot.move_to as a single-robot primitive (used standalone): assign pose
and velocity, step this body, refresh the sensor. -/
def move_to_robot (E : Env) (t : ℚ × ℚ) (r : RobotState) : RobotState :=
  let r1 := stepBody E (moveToVel E t r)
  { r1 with sensorPos := r1.pos, sensorAngle := r1.angle }

/-- SRobot.move_to inside the shared space: assign pose and velocity of robot
`i`, step the space, refresh the sensor. -/
def move_to (E : Env) (c : SwarmCtl) (i : ℕ) (t : ℚ × ℚ) : SwarmCtl :=
  sensorUpd (spaceStep E (updR c i (moveToVel E t (c.robots i)))) i

/-- Angular-velocity assignment of SRobot.rotate_to. -/
def rotateToVel (E : Env) (ang dir : ℚ) (r : RobotState) : RobotState :=
  if |qmod r.angle (2 * E.pi) - qmod ang (2 * E.pi)| < 9 / 100 then
    { r with angVel := 0 }
  else
    { r with angVel := dir * E.pi / 3 }

/-- SRobot.rotate_to: assign the angular velocity, step the space, refresh
the sensor. -/
def rotate_to (E : Env) (c : SwarmCtl) (i : ℕ) (ang dir : ℚ) : SwarmCtl :=
  sensorUpd (spaceStep E (updR c i (rotateToVel E ang dir (c.robots i)))) i

/-- SwarmController.__compute_new_pos_for_robot. -/
def compute_new_pos_for_robot (E : Env) (c : SwarmCtl) (vrot : ℚ) (robotN : ℕ) : ℚ × ℚ :=
  let oldAngle := c.angle + E.pi / 2 + robotN * c.bAngle
  let ang := 5 * vrot * (1 / FPS)
  if 0 < vrot then
    (c.position.1 + c.fSca * E.cos (oldAngle + ang),
     c.position.2 + c.fSca * E.sin (oldAngle + ang))
  else
    (c.position.1 + c.fSca * E.cos (oldAngle - ang),
     c.position.2 + c.fSca * E.sin (oldAngle - ang))

/-- SwarmController.get_avg_vel, with the per-robot sensing-plus-fuzzy
pipeline (laser_sensor.py / fuzzy.py, external to the controller) abstracted
as the oracle `vels` giving each robot's (vtras, vrot). -/
def get_avg_vel (vels : ℕ → ℚ × ℚ) (n : ℕ) : ℚ × ℚ :=
  (((List.range n).map fun i => (vels i).1).sum / n,
   ((List.range n).map fun i => (vels i).2).sum / n)

/-- The inner `for i in range(self.swarm_size): self.robots[i].stop_move()`
loop of the rotation dispatch. -/
def stopAllRobots (E : Env) (n : ℕ) (c : SwarmCtl) : SwarmCtl :=
  (List.range n).foldl (fun a j => stop_move E a j) c

/-- The `for i in range(self.swarm_size): self.robots[i].move(self.vtras)`
loop of the TRANSLATION_INI state. -/
def moveAllRobots (E : Env) (n : ℕ) (c : SwarmCtl) : SwarmCtl :=
  (List.range n).foldl (fun a i => move E a i a.vtras) c

/-- One iteration of the rotation-dispatch loop: record robot `i`'s target
slot, then (as written in the source, nested inside this loop) stop every
robot once. -/
def rotBody (E : Env) (acc : SwarmCtl) (i : ℕ) : SwarmCtl :=
  stopAllRobots E acc.swarmSize
    { acc with rTargetPos := Function.update acc.rTargetPos i
                               (compute_new_pos_for_robot E acc acc.vrot i) }

/-- The per-robot loop of the ROTATION_MOVE state, returning the updated
controller and the `finished_tras` count. -/
def rotateMoveLoop (E : Env) (c : SwarmCtl) : SwarmCtl × ℕ :=
  (List.range c.swarmSize).foldl
    (fun p i =>
      if (1 / 2 : ℚ) ^ 2 ≤ sqnorm (vsub ((p.1.robots i).pos) (p.1.rTargetPos i)) then
        (move_to E p.1 i (p.1.rTargetPos i), p.2)
      else
        (stop_move E p.1 i, p.2 + 1))
    (c, 0)

/-- The optimal turn direction recorded for robot `i` once every robot has
reached its slot: +1 when the wrapped difference between the formation
heading and the robot heading is below π, else -1. -/
def dirFor (E : Env) (c : SwarmCtl) (i : ℕ) : ℤ :=
  if qmod (qmod c.angle (2 * E.pi) - qmod ((c.robots i).angle) (2 * E.pi))
       (2 * E.pi) < E.pi then 1 else -1

/-- The consecutive-same-maneuver bookkeeping at a dispatch. -/
def dispatchCount (c : SwarmCtl) (s : SwarmState) : SwarmCtl :=
  if c.lastState ≠ s then { c with stateCount := 0, lastState := s }
  else { c with stateCount := c.stateCount + 1 }

/-- The rotation dispatch taken in the NONE state on action 1: record each
robot's target slot with the nested stop loop, then enter ROTATION_MOVE. -/
def rotationDispatch (E : Env) (now : ℚ) (c1 : SwarmCtl) : SwarmCtl :=
  let c2 := dispatchCount c1 SwarmState.ROTATION_MOVE
  let c3 := { c2 with rTargetPos := fun _ => (0, 0) }
  let c4 := (List.range c3.swarmSize).foldl (rotBody E) c3
  { c4 with state := SwarmState.ROTATION_MOVE, stateStart := now }

/-- SwarmController.__unstuck_swarm: force every robot's heading to the
formation heading and reset the state to NONE (no physics step). -/
def unstuck_swarm (c : SwarmCtl) : SwarmCtl :=
  { c with robots := fun j => if j < c.swarmSize then
                                { c.robots j with angle := c.angle }
                              else c.robots j,
           state := SwarmState.NONE }

/-- SwarmController.run.  `vels` abstracts the sensing/fuzzy oracle, `now`
is the value time.time() returns during this call, `action` is the optional
requested action (an integer in the source). -/
def run (E : Env) (vels : ℕ → ℚ × ℚ) (now : ℚ) (c : SwarmCtl) (action : Option ℤ) :
    SwarmCtl :=
  if c.state ≠ SwarmState.NONE ∧ action.isSome then c
  else
    let act := if 150 < c.stateCount ∧ c.state = SwarmState.NONE ∧ action.isSome then
                 action.map (fun a => 1 - a)
               else action
    if c.state = SwarmState.NONE then
      let v := get_avg_vel vels c.swarmSize
      let c1 := { c with vtras := v.1, vrot := v.2 }
      if act = some 0 then
        let c2 := dispatchCount c1 SwarmState.TRANSLATION_INI
        { c2 with state := SwarmState.TRANSLATION_INI, stateStart := now }
      else if act = some 1 then
        rotationDispatch E now c1
      else c1
    else if c.state = SwarmState.TRANSLATION_INI then
      let c1 := moveAllRobots E c.swarmSize c
      let c2 := { c1 with position :=
        (c1.position.1 + c1.vtras * ((c1.swarmSize : ℚ) / FPS) * E.cos c1.angle,
         c1.position.2 + c1.vtras * ((c1.swarmSize : ℚ) / FPS) * E.sin c1.angle) }
      { c2 with state := SwarmState.TRANSLATION_STOP, stateStart := now }
    else if c.state = SwarmState.TRANSLATION_STOP then
      let c1 := stopAllRobots E c.swarmSize c
      { c1 with state := SwarmState.NONE }
    else if c.state = SwarmState.ROTATION_MOVE then
      let c0 := if 5 < now - c.stateStart then unstuck_swarm c else c
      let p := rotateMoveLoop E c0
      if p.2 = p.1.swarmSize then
        let c1 := { p.1 with angle := p.1.angle + 5 * p.1.vrot * (1 / FPS) }
        let c2 := { c1 with rDir := fun i =>
          if i < c1.swarmSize then dirFor E c1 i else c1.rDir i }
        { c2 with state := SwarmState.ROTATION_ROT, stateStart := now }
      else p.1
    else if c.state = SwarmState.ROTATION_ROT then
      { c with robots := fun j => if j < c.swarmSize then
                                    { c.robots j with angle := qmod c.angle (2 * E.pi) }
                                  else c.robots j,
               state := SwarmState.NONE }
    else c

/-- The controller-level fields (everything except the robot bodies, the
recorded slots/directions and the step counter) that robot primitives never
touch; used to track them through the per-robot loops. -/
def SameCore (c c' : SwarmCtl) : Prop :=
  c'.swarmSize = c.swarmSize ∧ c'.position = c.position ∧ c'.angle = c.angle ∧
  c'.fSca = c.fSca ∧ c'.bAngle = c.bAngle ∧ c'.state = c.state ∧
  c'.vtras = c.vtras ∧ c'.vrot = c.vrot ∧ c'.stateStart = c.stateStart ∧
  c'.stateCount = c.stateCount ∧ c'.lastState = c.lastState

/-- The left-sector slice `distances[0 : n//3]` of SRobot.get_velocities. -/
def leftZone (xs : List ℚ) : List ℚ := xs.take (xs.length / 3)

/-- The front-sector slice `distances[n//3 : 2*n//3 + n%3]`. -/
def frontZone (xs : List ℚ) : List ℚ :=
  (xs.drop (xs.length / 3)).take (2 * xs.length / 3 + xs.length % 3 - xs.length / 3)

/-- The right-sector slice `distances[2*n//3 + n%3 : n]`. -/
def rightZone (xs : List ℚ) : List ℚ :=
  (xs.drop (2 * xs.length / 3 + xs.length % 3)).take
    (xs.length - (2 * xs.length / 3 + xs.length % 3))

/-- The harness-level data Simulation.__get_done_status and
Simulation.__get_reward read at the end of a step: the goal position, the
target body's position and rotation vector, the robot positions, the
formation center, and the screen size. -/
structure SimCfg where
  goalPos : ℚ × ℚ
  targetPos : ℚ × ℚ
  targetRot : ℚ × ℚ
  robotPos : ℕ → ℚ × ℚ
  swarmSize : ℕ
  swarmPos : ℚ × ℚ
  screen : ℚ × ℚ

/-- Simulation.__get_done_status: squared distance from the target body to
the nest-circle center (goal shifted by 12 on x) below HOME_NEST_AREA². -/
def get_done_status (cfg : SimCfg) : Bool :=
  decide (sqnorm (vsub cfg.targetPos (cfg.goalPos.1 + 12, cfg.goalPos.2))
          < homeNestArea ^ 2)

/-- pymunk Poly.point_query(goal).distance < 0 for the 20x20 target box with
box radius 0: the goal point lies strictly inside the box, tested in the
box's own frame through its rotation vector. -/
def point_query_inside (cfg : SimCfg) : Bool :=
  let lcl := unrotV cfg.targetRot (vsub cfg.goalPos cfg.targetPos)
  decide (|lcl.1| < 10 ∧ |lcl.2| < 10)

/-- Whether a robot position violates the arena bounds checked by
Simulation.__get_reward. -/
def outOfBounds (screen : ℚ × ℚ) (p : ℚ × ℚ) : Bool :=
  decide (p.1 < 0 ∨ screen.1 < p.1 ∨ p.2 < 0 ∨ screen.2 < p.2)

/-- Simulation.__get_reward (the task side-assignments do not affect the
returned value and are omitted).  Distances go through the abstract
math.sqrt of `E`. -/
def get_reward (E : Env) (cfg : SimCfg) (lastPos lastTarget : ℚ × ℚ) : ℤ :=
  if point_query_inside cfg then 100
  else if (List.range cfg.swarmSize).any (fun i => outOfBounds cfg.screen (cfg.robotPos i)) then
    -10
  else
    if 20 < E.sqrt (sqnorm (vsub cfg.swarmPos cfg.targetPos)) then
      if 1 < E.sqrt (sqnorm (vsub lastPos cfg.targetPos))
            - E.sqrt (sqnorm (vsub cfg.swarmPos cfg.targetPos)) then 1
      else -1
    else
      if 1 < E.sqrt (sqnorm (vsub lastTarget cfg.goalPos))
            - E.sqrt (sqnorm (vsub cfg.targetPos cfg.goalPos)) then 5
      else -3

/-- A concrete environment whose trig functions are the constant rotation
vector (1, 0): enough to evaluate the controller on concrete inputs. -/
def oneEnv : Env :=
  { pi := 3, cos := fun _ => 1, sin := fun _ => 0, atan2 := fun _ _ => 0,
    sqrt := fun _ => 0, damp := 1 }

/-- A concrete environment carrying a pointwise-consistent trig table around
the 3-4-5 triangle, used to witness the move_to theorem. -/
def trigEnv : Env :=
  { pi := 3,
    cos := fun a => if a = 7 then 3 / 5 else if a = -7 then 3 / 5 else
                    if a = 0 then 1 else 0,
    sin := fun a => if a = 7 then -4 / 5 else if a = -7 then 4 / 5 else 0,
    atan2 := fun y x => if y = -4 ∧ x = 3 then 7 else 0,
    sqrt := fun _ => 0, damp := 1 }

/-- A robot at rest at position `p` with heading 0 and a synced sensor. -/
def robotAt (p : ℚ × ℚ) : RobotState :=
  { pos := p, angle := 0, vel := (0, 0), angVel := 0,
    sensorPos := p, sensorAngle := 0, stopCalls := 0 }

/-- A concrete controller builder for witnesses and counterexamples. -/
def mkCtl (n : ℕ) (st : SwarmState) (cnt : ℕ) (last : SwarmState)
    (rob : ℕ → RobotState) (rtp : ℕ → ℚ × ℚ) : SwarmCtl :=
  { swarmSize := n, position := (100, 100), angle := 0, fSca := 23, bAngle := 3,
    robots := rob, rTargetPos := rtp, rDir := fun _ => 1, vtras := 0, vrot := 0,
    state := st, stateStart := 0, stateCount := cnt, lastState := last,
    stepCount := 0 }

/-- The concrete harness configuration of the C1 counterexample: the target
box is inside the nest circle but the goal point is not inside the box. -/
def cxCfg : SimCfg :=
  { goalPos := (100, 100), targetPos := (136, 100), targetRot := (1, 0),
    robotPos := fun _ => (200, 200), swarmSize := 3, swarmPos := (400, 400),
    screen := (500, 500) }

theorem qmod_bounds (a m : ℚ) (hm : 0 < m) : 0 ≤ qmod a m ∧ qmod a m < m := by
  have hm' : m ≠ 0 := ne_of_gt hm
  have e : m * (a / m) = a := by field_simp
  have h1 : ((⌊a / m⌋ : ℚ)) ≤ a / m := Int.floor_le _
  have h2 : a / m < (⌊a / m⌋ : ℚ) + 1 := Int.lt_floor_add_one _
  have h1' := mul_le_mul_of_nonneg_left h1 hm.le
  have h2' := mul_lt_mul_of_pos_left h2 hm
  constructor
  · unfold qmod; linarith
  · unfold qmod; nlinarith

theorem qmod_of_nonneg_lt (r m : ℚ) (h0 : 0 ≤ r) (h1 : r < m) : qmod r m = r := by
  have hm : 0 < m := lt_of_le_of_lt h0 h1
  have : ⌊r / m⌋ = 0 := by
    rw [Int.floor_eq_zero_iff]
    constructor
    · exact div_nonneg h0 hm.le
    · rw [div_lt_one hm]; exact h1
  unfold qmod
  rw [this]
  push_cast
  ring

theorem qmod_of_neg_ge (x m : ℚ) (hm : 0 < m) (h0 : -m ≤ x) (h1 : x < 0) :
    qmod x m = x + m := by
  have : ⌊x / m⌋ = -1 := by
    rw [Int.floor_eq_iff]
    constructor
    · push_cast
      rw [neg_le, ← neg_div]
      exact (div_le_one hm).mpr (by linarith)
    · push_cast
      calc x / m < 0 := div_neg_of_neg_of_pos h1 hm
        _ ≤ -1 + 1 := by norm_num
  unfold qmod
  rw [this]
  push_cast
  ring

/-- C8: for every angle a (and every positive rational value pi of the float
constant math.pi), __normalize_angle returns a value in the half-open
interval (-pi, pi], and normalizing twice equals normalizing once. -/
theorem normalize_angle_spec (pi a : ℚ) (hpi : 0 < pi) :
    (-pi < normalize_angle pi a ∧ normalize_angle pi a ≤ pi) ∧
    normalize_angle pi (normalize_angle pi a) = normalize_angle pi a := by
  have h2pi : (0 : ℚ) < 2 * pi := by linarith
  obtain ⟨hb0, hb1⟩ := qmod_bounds a (2 * pi) h2pi
  unfold normalize_angle
  by_cases h : pi < qmod a (2 * pi)
  · rw [if_pos h]
    have hx0 : -(2 * pi) ≤ -(2 * pi - qmod a (2 * pi)) := by linarith
    have hx1 : -(2 * pi - qmod a (2 * pi)) < 0 := by linarith
    refine ⟨⟨by linarith, by linarith⟩, ?_⟩
    rw [qmod_of_neg_ge _ _ h2pi hx0 hx1]
    rw [if_pos (by linarith : pi < -(2 * pi - qmod a (2 * pi)) + 2 * pi)]
    ring
  · rw [if_neg h]
    push_neg at h
    refine ⟨⟨by linarith, h⟩, ?_⟩
    rw [qmod_of_nonneg_lt _ _ hb0 hb1, if_neg (by linarith : ¬ pi < qmod a (2 * pi))]

theorem normalize_angle_spec_witness :
    (0 : ℚ) < 3 ∧
    ((-3 < normalize_angle 3 10 ∧ normalize_angle 3 10 ≤ 3) ∧
     normalize_angle 3 (normalize_angle 3 10) = normalize_angle 3 10) :=
  ⟨by norm_num, normalize_angle_spec 3 10 (by norm_num)⟩

/-- C5 (amended): the three sector slices partition the readings, with left
taken from the start; the sizes are n/3, n/3 + n%3 and n/3 when n % 3 ∈
{0, 1}, but when n % 3 = 2 the slice bound 2*n//3 rounds up, so the front
sector takes one extra beam from the right: n/3, n/3 + n%3 + 1, n/3 - 1.
In particular for n = 32 the sizes are 10, 13, 10 - 1 = 9, not 10, 12, 10. -/
theorem zones_partition (xs : List ℚ) (h : 3 ≤ xs.length) :
    (leftZone xs).length = xs.length / 3 ∧
    (frontZone xs).length
      = xs.length / 3 + xs.length % 3 + (if xs.length % 3 = 2 then 1 else 0) ∧
    (rightZone xs).length = xs.length / 3 - (if xs.length % 3 = 2 then 1 else 0) ∧
    leftZone xs ++ frontZone xs ++ rightZone xs = xs := by
  refine ⟨?_, ?_, ?_, ?_⟩
  · simp only [leftZone, List.length_take]
    omega
  · simp only [frontZone, List.length_take, List.length_drop]
    by_cases h2 : xs.length % 3 = 2
    · rw [if_pos h2]; omega
    · rw [if_neg h2]; omega
  · simp only [rightZone, List.length_take, List.length_drop]
    by_cases h2 : xs.length % 3 = 2
    · rw [if_pos h2]; omega
    · rw [if_neg h2]; omega
  · have e1 : leftZone xs ++ frontZone xs
        = xs.take (2 * xs.length / 3 + xs.length % 3) := by
      unfold leftZone frontZone
      rw [← List.take_add]
      congr 1
      omega
    have e2 : rightZone xs = xs.drop (2 * xs.length / 3 + xs.length % 3) := by
      unfold rightZone
      exact List.take_of_length_le (by simp)
    rw [e1, e2, List.take_append_drop]

theorem zones_partition_witness :
    3 ≤ (List.replicate 7 (0 : ℚ)).length ∧
    (leftZone (List.replicate 7 (0 : ℚ))).length = (List.replicate 7 (0 : ℚ)).length / 3 := by
  exact ⟨by decide, (zones_partition (List.replicate 7 (0 : ℚ)) (by decide)).1⟩

/-- C5 counterexample: at the actual beam count n = 32 the front sector has
13 readings, not 32/3 + 32%3 = 12, and the right sector has 9, not 10. -/
theorem zones_32_cx :
    (frontZone (List.replicate 32 (0 : ℚ))).length = 13 ∧
    (frontZone (List.replicate 32 (0 : ℚ))).length ≠ 32 / 3 + 32 % 3 ∧
    (rightZone (List.replicate 32 (0 : ℚ))).length = 9 := by decide

/-- C3: __compute_new_pos_for_robot returns the same slot for v_rotate and
-v_rotate: with vrot > 0 the branch adds the increment 5*vrot/FPS, and with
-vrot < 0 the other branch subtracts 5*(-vrot)/FPS, which is the same
angle, so the sign of v_rotate does not change the direction of the arc
displacement (contradicting the clockwise/anti-clockwise split the claim
and the source comments describe). -/
theorem compute_new_pos_sign_independent (E : Env) (c : SwarmCtl) (v : ℚ) (n : ℕ)
    (hv : 0 < v) :
    compute_new_pos_for_robot E c v n = compute_new_pos_for_robot E c (-v) n := by
  unfold compute_new_pos_for_robot
  rw [if_pos hv, if_neg (by linarith : ¬ (0 : ℚ) < -v)]
  have harg : c.angle + E.pi / 2 + (n : ℚ) * c.bAngle + 5 * v * (1 / FPS)
      = c.angle + E.pi / 2 + (n : ℚ) * c.bAngle - 5 * (-v) * (1 / FPS) := by ring
  rw [harg]

theorem compute_new_pos_sign_independent_witness :
    (0 : ℚ) < 1 ∧
    compute_new_pos_for_robot oneEnv
        (mkCtl 1 SwarmState.NONE 0 SwarmState.NONE (fun _ => robotAt (0, 0))
          (fun _ => (0, 0))) 1 0
      = compute_new_pos_for_robot oneEnv
          (mkCtl 1 SwarmState.NONE 0 SwarmState.NONE (fun _ => robotAt (0, 0))
            (fun _ => (0, 0))) (-1) 0 :=
  ⟨by norm_num,
   compute_new_pos_sign_independent oneEnv _ 1 0 (by norm_num)⟩

/-- C1 (amended): `done` is true iff the squared distance from the target
position to the nest-circle center is below HOME_NEST_AREA², while the
reward equals 100 iff the goal point lies strictly inside the target box
(point_query distance < 0) - an independent geometric condition, so the
reward need not be 100 on the tick `done` becomes true. -/
theorem done_reward_spec (E : Env) (cfg : SimCfg) (lastPos lastTarget : ℚ × ℚ) :
    (get_done_status cfg = true ↔
      sqnorm (vsub cfg.targetPos (cfg.goalPos.1 + 12, cfg.goalPos.2)) < homeNestArea ^ 2) ∧
    (get_reward E cfg lastPos lastTarget = 100 ↔ point_query_inside cfg = true) := by
  constructor
  · simp [get_done_status]
  · constructor
    · intro h
      by_contra hin
      simp only [Bool.not_eq_true] at hin
      unfold get_reward at h
      rw [hin] at h
      simp only [Bool.false_eq_true, if_false] at h
      split_ifs at h <;> omega
    · intro h
      unfold get_reward
      rw [h]
      simp

/-- C1 counterexample: the target center 24 cm from the nest center makes
`done` true (24² < 25²), but the goal point is 36 cm from the box center,
outside the 20x20 box, so the reward is -3, not 100, on that very tick. -/
theorem done_without_reward_cx :
    get_done_status cxCfg = true ∧
    get_reward oneEnv cxCfg (0, 0) (0, 0) = -3 ∧
    get_reward oneEnv cxCfg (0, 0) (0, 0) ≠ 100 := by
  have hpq : point_query_inside cxCfg = false := by
    simp only [point_query_inside, cxCfg, unrotV, vsub, decide_eq_false_iff_not]
    norm_num
  have hr : get_reward oneEnv cxCfg (0, 0) (0, 0) = -3 := by
    simp only [get_reward, hpq, Bool.false_eq_true, if_false]
    norm_num [cxCfg, oneEnv, outOfBounds, sqnorm, vsub, List.range_succ]
  refine ⟨?_, hr, by rw [hr]; decide⟩
  simp only [get_done_status, cxCfg, sqnorm, vsub, homeNestArea, decide_eq_true_eq]
  norm_num

theorem sameCore_refl (c : SwarmCtl) : SameCore c c := by
  exact ⟨rfl, rfl, rfl, rfl, rfl, rfl, rfl, rfl, rfl, rfl, rfl⟩

theorem sameCore_trans {a b c : SwarmCtl} (h1 : SameCore a b) (h2 : SameCore b c) :
    SameCore a c := by
  obtain ⟨s1, p1, a1, f1, b1, st1, v1, w1, ss1, sc1, l1⟩ := h1
  obtain ⟨s2, p2, a2, f2, b2, st2, v2, w2, ss2, sc2, l2⟩ := h2
  exact ⟨s2.trans s1, p2.trans p1, a2.trans a1, f2.trans f1, b2.trans b1, st2.trans st1,
         v2.trans v1, w2.trans w1, ss2.trans ss1, sc2.trans sc1, l2.trans l1⟩

theorem stop_move_sameCore (E : Env) (c : SwarmCtl) (i : ℕ) :
    SameCore c (stop_move E c i) := by
  exact ⟨rfl, rfl, rfl, rfl, rfl, rfl, rfl, rfl, rfl, rfl, rfl⟩

theorem move_sameCore (E : Env) (c : SwarmCtl) (i : ℕ) (v : ℚ) :
    SameCore c (move E c i v) := by
  exact ⟨rfl, rfl, rfl, rfl, rfl, rfl, rfl, rfl, rfl, rfl, rfl⟩

theorem move_to_sameCore (E : Env) (c : SwarmCtl) (i : ℕ) (t : ℚ × ℚ) :
    SameCore c (move_to E c i t) := by
  exact ⟨rfl, rfl, rfl, rfl, rfl, rfl, rfl, rfl, rfl, rfl, rfl⟩

theorem foldl_sameCore {α : Type} (g : SwarmCtl → α → SwarmCtl)
    (hg : ∀ c x, SameCore c (g c x)) :
    ∀ (l : List α) (c : SwarmCtl), SameCore c (l.foldl g c) := by
  intro l
  induction l with
  | nil => intro c; exact sameCore_refl c
  | cons x xs ih =>
    intro c
    rw [List.foldl_cons]
    exact sameCore_trans (hg c x) (ih (g c x))

theorem stopAllRobots_sameCore (E : Env) (n : ℕ) (c : SwarmCtl) :
    SameCore c (stopAllRobots E n c) :=
  foldl_sameCore _ (fun a j => stop_move_sameCore E a j) _ c

theorem moveAllRobots_sameCore (E : Env) (n : ℕ) (c : SwarmCtl) :
    SameCore c (moveAllRobots E n c) :=
  foldl_sameCore _ (fun a i => move_sameCore E a i a.vtras) _ c

theorem stop_move_stepCount (E : Env) (c : SwarmCtl) (i : ℕ) :
    (stop_move E c i).stepCount = c.stepCount + 1 := rfl

theorem stop_move_stopCalls (E : Env) (c : SwarmCtl) (i j : ℕ) :
    ((stop_move E c i).robots j).stopCalls
      = (c.robots j).stopCalls + (if j = i then 1 else 0) := by
  by_cases hji : j = i
  · subst hji
    simp [stop_move, sensorUpd, spaceStep, updR, Function.update_same, stepBody, stopVel]
  · simp [stop_move, sensorUpd, spaceStep, updR, Function.update_noteq hji, stepBody,
          stopVel, hji]

theorem stopAllRobots_spec (E : Env) : ∀ (n : ℕ) (c : SwarmCtl),
    (stopAllRobots E n c).stepCount = c.stepCount + n ∧
    ∀ j, ((stopAllRobots E n c).robots j).stopCalls
        = (c.robots j).stopCalls + (if j < n then 1 else 0) := by
  intro n
  induction n with
  | zero => intro c; simp [stopAllRobots]
  | succ m ih =>
    intro c
    have hdef : stopAllRobots E (m + 1) c = stop_move E (stopAllRobots E m c) m := by
      unfold stopAllRobots
      rw [List.range_succ, List.foldl_append, List.foldl_cons, List.foldl_nil]
    rw [hdef]
    obtain ⟨ih1, ih2⟩ := ih c
    constructor
    · rw [stop_move_stepCount, ih1]
      omega
    · intro j
      rw [stop_move_stopCalls, ih2 j]
      split_ifs <;> omega

theorem rotBody_fields (E : Env) (acc : SwarmCtl) (i : ℕ) :
    (rotBody E acc i).swarmSize = acc.swarmSize ∧
    (rotBody E acc i).stepCount = acc.stepCount + acc.swarmSize ∧
    ∀ j, ((rotBody E acc i).robots j).stopCalls
        = (acc.robots j).stopCalls + (if j < acc.swarmSize then 1 else 0) := by
  unfold rotBody
  refine ⟨(stopAllRobots_sameCore E acc.swarmSize _).1, ?_, ?_⟩
  · exact (stopAllRobots_spec E acc.swarmSize _).1
  · exact (stopAllRobots_spec E acc.swarmSize _).2

theorem rotFold_spec (E : Env) : ∀ (l : List ℕ) (c : SwarmCtl),
    ((l.foldl (rotBody E) c).swarmSize = c.swarmSize ∧
     (l.foldl (rotBody E) c).stepCount = c.stepCount + l.length * c.swarmSize) ∧
    ∀ j, ((l.foldl (rotBody E) c).robots j).stopCalls
        = (c.robots j).stopCalls + l.length * (if j < c.swarmSize then 1 else 0) := by
  intro l
  induction l with
  | nil => intro c; simp
  | cons x xs ih =>
    intro c
    rw [List.foldl_cons]
    obtain ⟨⟨ihs, ihc⟩, ihr⟩ := ih (rotBody E c x)
    obtain ⟨bs, bc, br⟩ := rotBody_fields E c x
    refine ⟨⟨ihs.trans bs, ?_⟩, ?_⟩
    · rw [ihc, bc, bs]
      simp only [List.length_cons]
      ring
    · intro j
      rw [bs] at ihr
      rw [ihr j, br j]
      simp only [List.length_cons]
      ring

theorem dispatchCount_swarmSize (c : SwarmCtl) (s : SwarmState) :
    (dispatchCount c s).swarmSize = c.swarmSize := by
  unfold dispatchCount; split <;> rfl

theorem dispatchCount_position (c : SwarmCtl) (s : SwarmState) :
    (dispatchCount c s).position = c.position := by
  unfold dispatchCount; split <;> rfl

theorem dispatchCount_angle (c : SwarmCtl) (s : SwarmState) :
    (dispatchCount c s).angle = c.angle := by
  unfold dispatchCount; split <;> rfl

theorem dispatchCount_vtras (c : SwarmCtl) (s : SwarmState) :
    (dispatchCount c s).vtras = c.vtras := by
  unfold dispatchCount; split <;> rfl

theorem dispatchCount_vrot (c : SwarmCtl) (s : SwarmState) :
    (dispatchCount c s).vrot = c.vrot := by
  unfold dispatchCount; split <;> rfl

theorem dispatchCount_robots (c : SwarmCtl) (s : SwarmState) :
    (dispatchCount c s).robots = c.robots := by
  unfold dispatchCount; split <;> rfl

theorem dispatchCount_stepCount (c : SwarmCtl) (s : SwarmState) :
    (dispatchCount c s).stepCount = c.stepCount := by
  unfold dispatchCount; split <;> rfl

theorem rotationDispatch_spec (E : Env) (now : ℚ) (c1 : SwarmCtl) :
    (rotationDispatch E now c1).state = SwarmState.ROTATION_MOVE ∧
    (rotationDispatch E now c1).stepCount = c1.stepCount + c1.swarmSize * c1.swarmSize ∧
    ∀ j, ((rotationDispatch E now c1).robots j).stopCalls
        = (c1.robots j).stopCalls + (if j < c1.swarmSize then c1.swarmSize else 0) := by
  unfold rotationDispatch
  obtain ⟨⟨fs, fc⟩, fr⟩ := rotFold_spec E
    (List.range ({ dispatchCount c1 SwarmState.ROTATION_MOVE with
                   rTargetPos := fun _ => ((0 : ℚ), (0 : ℚ)) } : SwarmCtl).swarmSize)
    { dispatchCount c1 SwarmState.ROTATION_MOVE with
      rTargetPos := fun _ => ((0 : ℚ), (0 : ℚ)) }
  refine ⟨rfl, ?_, ?_⟩
  · show (_ : SwarmCtl).stepCount = _
    rw [fc, List.length_range]
    show (dispatchCount c1 SwarmState.ROTATION_MOVE).stepCount
        + (dispatchCount c1 SwarmState.ROTATION_MOVE).swarmSize
          * (dispatchCount c1 SwarmState.ROTATION_MOVE).swarmSize
      = c1.stepCount + c1.swarmSize * c1.swarmSize
    rw [dispatchCount_stepCount, dispatchCount_swarmSize]
  · intro j
    show ((_ : SwarmCtl).robots j).stopCalls = _
    rw [fr j, List.length_range]
    show ((dispatchCount c1 SwarmState.ROTATION_MOVE).robots j).stopCalls
        + (dispatchCount c1 SwarmState.ROTATION_MOVE).swarmSize
          * (if j < (dispatchCount c1 SwarmState.ROTATION_MOVE).swarmSize then 1 else 0)
      = (c1.robots j).stopCalls + (if j < c1.swarmSize then c1.swarmSize else 0)
    rw [dispatchCount_swarmSize, dispatchCount_robots]
    split_ifs <;> ring

/-- C9: immediately after any of the four motion primitives returns, the
range sensor's stored pose of the robot the primitive was invoked on equals
that robot's body pose. -/
theorem sensor_pose_sync (E : Env) (c : SwarmCtl) (i : ℕ) (v ang dir : ℚ) (t : ℚ × ℚ) :
    (((move E c i v).robots i).sensorPos = ((move E c i v).robots i).pos ∧
     ((move E c i v).robots i).sensorAngle = ((move E c i v).robots i).angle) ∧
    (((stop_move E c i).robots i).sensorPos = ((stop_move E c i).robots i).pos ∧
     ((stop_move E c i).robots i).sensorAngle = ((stop_move E c i).robots i).angle) ∧
    (((move_to E c i t).robots i).sensorPos = ((move_to E c i t).robots i).pos ∧
     ((move_to E c i t).robots i).sensorAngle = ((move_to E c i t).robots i).angle) ∧
    (((rotate_to E c i ang dir).robots i).sensorPos = ((rotate_to E c i ang dir).robots i).pos ∧
     ((rotate_to E c i ang dir).robots i).sensorAngle
       = ((rotate_to E c i ang dir).robots i).angle) := by
  refine ⟨⟨?_, ?_⟩, ⟨?_, ?_⟩, ⟨?_, ?_⟩, ⟨?_, ?_⟩⟩ <;>
    simp [move, stop_move, move_to, rotate_to, sensorUpd, updR, Function.update_same]

/-- C7 (amended): the requested maneuver kind is inverted only when the
consecutive-same-maneuver counter strictly exceeds 150 (i.e. from the 151st
consecutive same-kind idle entry on): then a TRANSLATE request dispatches
the rotation maneuver and a ROTATE request dispatches the translation. -/
theorem run_inverts_above_150 (E : Env) (vels : ℕ → ℚ × ℚ) (now : ℚ) (c : SwarmCtl)
    (h1 : c.state = SwarmState.NONE) (h2 : 150 < c.stateCount) :
    (run E vels now c (some 0)).state = SwarmState.ROTATION_MOVE ∧
    (run E vels now c (some 1)).state = SwarmState.TRANSLATION_INI := by
  constructor
  · simp only [run, h1, h2, ne_eq, not_true_eq_false, false_and, if_false,
      Option.isSome_some, and_true, true_and, if_true, Option.map_some', sub_zero,
      ite_true, ite_false]
    exact (rotationDispatch_spec E now _).1
  · simp only [run, h1, h2, ne_eq, not_true_eq_false, false_and, if_false,
      Option.isSome_some, and_true, true_and, if_true, Option.map_some', sub_self,
      ite_true, ite_false]

theorem run_inverts_above_150_witness :
    (mkCtl 1 SwarmState.NONE 200 SwarmState.NONE (fun _ => robotAt (0, 0))
        (fun _ => (0, 0))).state = SwarmState.NONE ∧
    150 < (mkCtl 1 SwarmState.NONE 200 SwarmState.NONE (fun _ => robotAt (0, 0))
        (fun _ => (0, 0))).stateCount ∧
    (run oneEnv (fun _ => (0, 0)) 0
        (mkCtl 1 SwarmState.NONE 200 SwarmState.NONE (fun _ => robotAt (0, 0))
          (fun _ => (0, 0))) (some 0)).state = SwarmState.ROTATION_MOVE :=
  ⟨rfl, by norm_num [mkCtl],
   (run_inverts_above_150 oneEnv (fun _ => (0, 0)) 0 _ rfl (by norm_num [mkCtl])).1⟩

/-- C7 counterexample: with the counter exactly at 150 (so the same maneuver
was requested on 150 consecutive idle entries) the guard `state_count > 150`
does not fire and a TRANSLATE request is dispatched un-inverted. -/
theorem no_invert_at_150_cx :
    (run oneEnv (fun _ => (0, 0)) 0
        (mkCtl 1 SwarmState.NONE 150 SwarmState.TRANSLATION_INI (fun _ => robotAt (0, 0))
          (fun _ => (0, 0))) (some 0)).state = SwarmState.TRANSLATION_INI := by
  simp only [run, mkCtl]
  norm_num

/-- C10: accepting a ROTATE action in the idle state stops every robot once
per outer loop iteration (the stop loop is nested inside the slot loop), so
each of the N robots receives N stop_move calls, the physics space is
stepped N*N times, and the controller then enters ROTATION_MOVE. -/
theorem rotate_dispatch_quadratic_stops (E : Env) (vels : ℕ → ℚ × ℚ) (now : ℚ)
    (c : SwarmCtl) (h1 : c.state = SwarmState.NONE) (h2 : c.stateCount ≤ 150) :
    (run E vels now c (some 1)).state = SwarmState.ROTATION_MOVE ∧
    (run E vels now c (some 1)).stepCount = c.stepCount + c.swarmSize * c.swarmSize ∧
    ∀ j, ((run E vels now c (some 1)).robots j).stopCalls
        = (c.robots j).stopCalls + (if j < c.swarmSize then c.swarmSize else 0) := by
  have hno : ¬ (150 < c.stateCount) := by omega
  simp only [run, h1, hno, ne_eq, not_true_eq_false, false_and, if_false,
    Option.isSome_some, and_true, true_and, false_and, ite_true, ite_false]
  norm_num
  obtain ⟨hs, hc, hr⟩ := rotationDispatch_spec E now
    { c with vtras := (get_avg_vel vels c.swarmSize).1,
             vrot := (get_avg_vel vels c.swarmSize).2,
             state := SwarmState.NONE }
  exact ⟨hs, hc, hr⟩

theorem rotate_dispatch_quadratic_stops_witness :
    (mkCtl 3 SwarmState.NONE 0 SwarmState.NONE (fun _ => robotAt (0, 0))
        (fun _ => (0, 0))).state = SwarmState.NONE ∧
    (mkCtl 3 SwarmState.NONE 0 SwarmState.NONE (fun _ => robotAt (0, 0))
        (fun _ => (0, 0))).stateCount ≤ 150 ∧
    (run oneEnv (fun _ => (0, 0)) 0
        (mkCtl 3 SwarmState.NONE 0 SwarmState.NONE (fun _ => robotAt (0, 0))
          (fun _ => (0, 0))) (some 1)).stepCount
      = (mkCtl 3 SwarmState.NONE 0 SwarmState.NONE (fun _ => robotAt (0, 0))
          (fun _ => (0, 0))).stepCount
        + (mkCtl 3 SwarmState.NONE 0 SwarmState.NONE (fun _ => robotAt (0, 0))
            (fun _ => (0, 0))).swarmSize
          * (mkCtl 3 SwarmState.NONE 0 SwarmState.NONE (fun _ => robotAt (0, 0))
              (fun _ => (0, 0))).swarmSize :=
  ⟨rfl, by norm_num [mkCtl],
   (rotate_dispatch_quadratic_stops oneEnv (fun _ => (0, 0)) 0 _ rfl
      (by norm_num [mkCtl])).2.1⟩

theorem run_none_some0 (E : Env) (vels : ℕ → ℚ × ℚ) (now : ℚ) (c : SwarmCtl)
    (h1 : c.state = SwarmState.NONE) (h2 : c.stateCount ≤ 150) :
    (run E vels now c (some 0)).state = SwarmState.TRANSLATION_INI ∧
    (run E vels now c (some 0)).position = c.position ∧
    (run E vels now c (some 0)).angle = c.angle ∧
    (run E vels now c (some 0)).swarmSize = c.swarmSize ∧
    (run E vels now c (some 0)).vtras = (get_avg_vel vels c.swarmSize).1 := by
  have hno : ¬ (150 < c.stateCount) := by omega
  simp only [run, h1, hno, ne_eq, not_true_eq_false, false_and, if_false,
    Option.isSome_some, and_true, true_and, ite_true, ite_false]
  refine ⟨?_, ?_, ?_, ?_⟩
  · rw [dispatchCount_position]
  · rw [dispatchCount_angle]
  · rw [dispatchCount_swarmSize]
  · rw [dispatchCount_vtras]

theorem run_transIni (E : Env) (vels : ℕ → ℚ × ℚ) (now : ℚ) (c : SwarmCtl)
    (h : c.state = SwarmState.TRANSLATION_INI) :
    (run E vels now c none).state = SwarmState.TRANSLATION_STOP ∧
    (run E vels now c none).position
      = (c.position.1 + c.vtras * ((c.swarmSize : ℚ) / FPS) * E.cos c.angle,
         c.position.2 + c.vtras * ((c.swarmSize : ℚ) / FPS) * E.sin c.angle) ∧
    (run E vels now c none).angle = c.angle ∧
    (run E vels now c none).swarmSize = c.swarmSize := by
  obtain ⟨ms, mp, ma, _, _, _, mv, _, _, _, _⟩ := moveAllRobots_sameCore E c.swarmSize c
  simp only [run, h, reduceCtorEq, Option.isSome_none, and_false, if_false, ne_eq,
    eq_self_iff_true, if_true, ite_true, ite_false, not_false_eq_true, and_true, true_and]
  exact ⟨by rw [mp, ma, mv, ms], ma, ms⟩

theorem run_transStop (E : Env) (vels : ℕ → ℚ × ℚ) (now : ℚ) (c : SwarmCtl)
    (h : c.state = SwarmState.TRANSLATION_STOP) :
    (run E vels now c none).state = SwarmState.NONE ∧
    (run E vels now c none).position = c.position ∧
    (run E vels now c none).angle = c.angle := by
  obtain ⟨ss, sp, sa, _, _, _, _, _, _, _, _⟩ := stopAllRobots_sameCore E c.swarmSize c
  simp only [run, h, reduceCtorEq, Option.isSome_none, and_false, if_false, ne_eq,
    eq_self_iff_true, if_true, ite_true, ite_false, not_false_eq_true, and_true, true_and]
  exact ⟨sp, sa⟩

/-- C2 (amended): from the idle state, provided the consecutive-same-maneuver
counter is at most 150 (otherwise the anti-oscillation guard inverts the
request into a rotation), a TRANSLATE request enters the translate-apply
state, the next run call moves every robot and enters translate-stop, and
the run call after that returns to idle; across the maneuver the formation
center moves by exactly v_translate * (swarm_size / FPS) along the heading
direction, the heading unchanged. -/
theorem run_translate_cycle (E : Env) (vels : ℕ → ℚ × ℚ) (t1 t2 t3 : ℚ) (c : SwarmCtl)
    (h1 : c.state = SwarmState.NONE) (h2 : c.stateCount ≤ 150) :
    (run E vels t1 c (some 0)).state = SwarmState.TRANSLATION_INI ∧
    (run E vels t2 (run E vels t1 c (some 0)) none).state = SwarmState.TRANSLATION_STOP ∧
    (run E vels t3 (run E vels t2 (run E vels t1 c (some 0)) none) none).state
      = SwarmState.NONE ∧
    (run E vels t3 (run E vels t2 (run E vels t1 c (some 0)) none) none).position
      = (c.position.1
           + (get_avg_vel vels c.swarmSize).1 * ((c.swarmSize : ℚ) / FPS) * E.cos c.angle,
         c.position.2
           + (get_avg_vel vels c.swarmSize).1 * ((c.swarmSize : ℚ) / FPS) * E.sin c.angle) ∧
    (run E vels t3 (run E vels t2 (run E vels t1 c (some 0)) none) none).angle
      = c.angle := by
  obtain ⟨s1, p1, a1, sz1, v1⟩ := run_none_some0 E vels t1 c h1 h2
  obtain ⟨s2, p2, a2, sz2⟩ := run_transIni E vels t2 _ s1
  obtain ⟨s3, p3, a3⟩ := run_transStop E vels t3 _ s2
  refine ⟨s1, s2, s3, ?_, ?_⟩
  · rw [p3, p2, p1, a1, v1, sz1]
  · rw [a3, a2, a1]

theorem run_translate_cycle_witness :
    (mkCtl 1 SwarmState.NONE 0 SwarmState.NONE (fun _ => robotAt (0, 0))
        (fun _ => (0, 0))).state = SwarmState.NONE ∧
    (mkCtl 1 SwarmState.NONE 0 SwarmState.NONE (fun _ => robotAt (0, 0))
        (fun _ => (0, 0))).stateCount ≤ 150 ∧
    (run oneEnv (fun _ => (6, 0)) 0
        (mkCtl 1 SwarmState.NONE 0 SwarmState.NONE (fun _ => robotAt (0, 0))
          (fun _ => (0, 0))) (some 0)).state = SwarmState.TRANSLATION_INI :=
  ⟨rfl, by norm_num [mkCtl],
   (run_translate_cycle oneEnv (fun _ => (6, 0)) 0 0 0 _ rfl (by norm_num [mkCtl])).1⟩

/-- C2 counterexample: a formation idle with the consecutive-same-maneuver
counter at 151 has its TRANSLATE request inverted by the anti-oscillation
guard: the requesting run call enters ROTATION_MOVE, not the translate-apply
state, so the translate maneuver is not executed. -/
theorem translate_inverted_cx :
    (run oneEnv (fun _ => (0, 0)) 0
        (mkCtl 1 SwarmState.NONE 151 SwarmState.ROTATION_MOVE (fun _ => robotAt (0, 0))
          (fun _ => (0, 0))) (some 0)).state = SwarmState.ROTATION_MOVE ∧
    (run oneEnv (fun _ => (0, 0)) 0
        (mkCtl 1 SwarmState.NONE 151 SwarmState.ROTATION_MOVE (fun _ => robotAt (0, 0))
          (fun _ => (0, 0))) (some 0)).state ≠ SwarmState.TRANSLATION_INI := by
  have hs : (run oneEnv (fun _ => (0, 0)) 0
      (mkCtl 1 SwarmState.NONE 151 SwarmState.ROTATION_MOVE (fun _ => robotAt (0, 0))
        (fun _ => (0, 0))) (some 0)).state = SwarmState.ROTATION_MOVE := by
    simp only [run, mkCtl]
    norm_num
    exact (rotationDispatch_spec oneEnv 0 _).1
  exact ⟨hs, by rw [hs]; decide⟩

/-- C4 evaluated at the failing input: in ROTATION_MOVE with 6 seconds
elapsed (timeout is 5) and every robot already within threshold of its slot,
__unstuck_swarm resets the state to idle but run falls through, counts every
robot as arrived, and ends the call in ROTATION_ROT, not idle. -/
theorem unstuck_falls_through :
    (run oneEnv (fun _ => (0, 0)) 6
        (mkCtl 1 SwarmState.ROTATION_MOVE 0 SwarmState.ROTATION_MOVE
          (fun _ => robotAt (123, 100)) (fun _ => (123, 100))) none).state
      = SwarmState.ROTATION_ROT ∧
    (run oneEnv (fun _ => (0, 0)) 6
        (mkCtl 1 SwarmState.ROTATION_MOVE 0 SwarmState.ROTATION_MOVE
          (fun _ => robotAt (123, 100)) (fun _ => (123, 100))) none).state
      ≠ SwarmState.NONE := by
  have hs : (run oneEnv (fun _ => (0, 0)) 6
      (mkCtl 1 SwarmState.ROTATION_MOVE 0 SwarmState.ROTATION_MOVE
        (fun _ => robotAt (123, 100)) (fun _ => (123, 100))) none).state
      = SwarmState.ROTATION_ROT := by
    simp only [run, mkCtl, reduceCtorEq, if_false, ite_false, ite_true, eq_self_iff_true,
      if_true, Option.isSome_none, and_false, ne_eq, not_false_eq_true, and_true, true_and]
    norm_num [unstuck_swarm, rotateMoveLoop, stop_move,
      sensorUpd, spaceStep, updR, stepBody, stopVel, sqnorm, vsub, vscale, vadd, robotAt,
      List.range_succ, List.range_zero, List.foldl_append, List.foldl_cons,
      List.foldl_nil, Function.update_same]
  exact ⟨hs, by rw [hs]; decide⟩

/-- C6 (amended): move_to snaps the heading to face the target - under the
pointwise trigonometric facts for the angles involved (unit rotation vector,
atan2 consistency at the unrotated delta, subtraction formulas), the new
heading's direction vector is the unit vector towards the target - then
drives at the fixed approach speed 10 along the new heading whenever the
squared distance is AT LEAST 0.25 (not only strictly above it), stops when
it is strictly below 0.25, and repeated calls within the threshold keep the
velocity at zero. -/
theorem move_to_spec (E : Env) (r : RobotState) (t : ℚ × ℚ) (L u1 u2 τ : ℚ)
    (hu1 : u1 = E.cos r.angle * (t.1 - r.pos.1) + E.sin r.angle * (t.2 - r.pos.2))
    (hu2 : u2 = E.sin r.angle * (t.1 - r.pos.1) - E.cos r.angle * (t.2 - r.pos.2))
    (ht : τ = E.atan2 u2 u1)
    (hL : 0 < L)
    (hL2 : L * L = (t.1 - r.pos.1) * (t.1 - r.pos.1) + (t.2 - r.pos.2) * (t.2 - r.pos.2))
    (h1 : E.cos r.angle * E.cos r.angle + E.sin r.angle * E.sin r.angle = 1)
    (h2c : L * E.cos τ = u1) (h2s : L * E.sin τ = u2)
    (h3c : E.cos (r.angle - τ) = E.cos r.angle * E.cos τ + E.sin r.angle * E.sin τ)
    (h3s : E.sin (r.angle - τ) = E.sin r.angle * E.cos τ - E.cos r.angle * E.sin τ) :
    (L * E.cos ((moveToVel E t r).angle) = t.1 - r.pos.1 ∧
     L * E.sin ((moveToVel E t r).angle) = t.2 - r.pos.2) ∧
    ((1 / 2 : ℚ) ^ 2 ≤ (t.1 - r.pos.1) * (t.1 - r.pos.1) + (t.2 - r.pos.2) * (t.2 - r.pos.2) →
      (moveToVel E t r).vel
        = (10 * (t.1 - r.pos.1) / L, 10 * (t.2 - r.pos.2) / L)) ∧
    ((t.1 - r.pos.1) * (t.1 - r.pos.1) + (t.2 - r.pos.2) * (t.2 - r.pos.2) < (1 / 2 : ℚ) ^ 2 →
      (moveToVel E t r).vel = (0, 0) ∧ (move_to_robot E t r).vel = (0, 0) ∧
      (move_to_robot E t (move_to_robot E t r)).vel = (0, 0)) := by
  subst ht
  subst hu1
  subst hu2
  have hca : L * E.cos (r.angle - E.atan2
      (E.sin r.angle * (t.1 - r.pos.1) - E.cos r.angle * (t.2 - r.pos.2))
      (E.cos r.angle * (t.1 - r.pos.1) + E.sin r.angle * (t.2 - r.pos.2)))
      = t.1 - r.pos.1 := by
    rw [h3c]
    linear_combination E.cos r.angle * h2c + E.sin r.angle * h2s + (t.1 - r.pos.1) * h1
  have hsa : L * E.sin (r.angle - E.atan2
      (E.sin r.angle * (t.1 - r.pos.1) - E.cos r.angle * (t.2 - r.pos.2))
      (E.cos r.angle * (t.1 - r.pos.1) + E.sin r.angle * (t.2 - r.pos.2)))
      = t.2 - r.pos.2 := by
    rw [h3s]
    linear_combination E.sin r.angle * h2c - E.cos r.angle * h2s + (t.2 - r.pos.2) * h1
  have hang : (moveToVel E t r).angle = r.angle - E.atan2
      (E.sin r.angle * (t.1 - r.pos.1) - E.cos r.angle * (t.2 - r.pos.2))
      (E.cos r.angle * (t.1 - r.pos.1) + E.sin r.angle * (t.2 - r.pos.2)) := by
    unfold moveToVel
    dsimp only
    simp only [unrotV, vsub]
    split <;> rfl
  refine ⟨⟨by rw [hang]; exact hca, by rw [hang]; exact hsa⟩, ?_, ?_⟩
  · intro hge
    have hnotlt : ¬ ((t.1 - r.pos.1) * (t.1 - r.pos.1)
        + (t.2 - r.pos.2) * (t.2 - r.pos.2) < (1 / 2 : ℚ) ^ 2) := not_lt.mpr hge
    have hveq : moveToVel E t r = { r with
        angle := r.angle - E.atan2
          (E.sin r.angle * (t.1 - r.pos.1) - E.cos r.angle * (t.2 - r.pos.2))
          (E.cos r.angle * (t.1 - r.pos.1) + E.sin r.angle * (t.2 - r.pos.2)),
        vel := rotV
          (E.cos (r.angle - E.atan2
             (E.sin r.angle * (t.1 - r.pos.1) - E.cos r.angle * (t.2 - r.pos.2))
             (E.cos r.angle * (t.1 - r.pos.1) + E.sin r.angle * (t.2 - r.pos.2))),
           E.sin (r.angle - E.atan2
             (E.sin r.angle * (t.1 - r.pos.1) - E.cos r.angle * (t.2 - r.pos.2))
             (E.cos r.angle * (t.1 - r.pos.1) + E.sin r.angle * (t.2 - r.pos.2))))
          (10 * (if 0 < (t.1 - r.pos.1) * E.cos (r.angle - E.atan2
                  (E.sin r.angle * (t.1 - r.pos.1) - E.cos r.angle * (t.2 - r.pos.2))
                  (E.cos r.angle * (t.1 - r.pos.1) + E.sin r.angle * (t.2 - r.pos.2)))
                + (t.2 - r.pos.2) * E.sin (r.angle - E.atan2
                  (E.sin r.angle * (t.1 - r.pos.1) - E.cos r.angle * (t.2 - r.pos.2))
                  (E.cos r.angle * (t.1 - r.pos.1) + E.sin r.angle * (t.2 - r.pos.2)))
               then (1 : ℚ) else -1), 0) } := by
      unfold moveToVel
      dsimp only
      simp only [unrotV, vsub, sqnorm, dotV]
      rw [if_neg hnotlt]
    have hdotL : (t.1 - r.pos.1) * E.cos (r.angle - E.atan2
          (E.sin r.angle * (t.1 - r.pos.1) - E.cos r.angle * (t.2 - r.pos.2))
          (E.cos r.angle * (t.1 - r.pos.1) + E.sin r.angle * (t.2 - r.pos.2)))
        + (t.2 - r.pos.2) * E.sin (r.angle - E.atan2
          (E.sin r.angle * (t.1 - r.pos.1) - E.cos r.angle * (t.2 - r.pos.2))
          (E.cos r.angle * (t.1 - r.pos.1) + E.sin r.angle * (t.2 - r.pos.2))) = L := by
      apply mul_left_cancel₀ (ne_of_gt hL)
      linear_combination (t.1 - r.pos.1) * hca + (t.2 - r.pos.2) * hsa - hL2
    rw [hveq]
    show rotV _ _ = _
    rw [hdotL, if_pos hL]
    unfold rotV
    refine Prod.ext ?_ ?_
    · show E.cos _ * (10 * 1) - E.sin _ * 0 = 10 * (t.1 - r.pos.1) / L
      rw [eq_div_iff (ne_of_gt hL)]
      linear_combination 10 * hca
    · show E.cos _ * 0 + E.sin _ * (10 * 1) = 10 * (t.2 - r.pos.2) / L
      rw [eq_div_iff (ne_of_gt hL)]
      linear_combination 10 * hsa
  · intro hlt
    have hveq0 : moveToVel E t r = { r with
        angle := r.angle - E.atan2
          (E.sin r.angle * (t.1 - r.pos.1) - E.cos r.angle * (t.2 - r.pos.2))
          (E.cos r.angle * (t.1 - r.pos.1) + E.sin r.angle * (t.2 - r.pos.2)),
        vel := (0, 0) } := by
      unfold moveToVel
      dsimp only
      simp only [unrotV, vsub, sqnorm, dotV]
      rw [if_pos hlt]
    have hv0 : (moveToVel E t r).vel = (0, 0) := by rw [hveq0]
    have hstepVel : ∀ s : RobotState,
        (move_to_robot E t s).vel = vscale E.damp ((moveToVel E t s).vel) := by
      intro s
      rfl
    have hstepPos : ∀ s : RobotState,
        (move_to_robot E t s).pos
          = vadd ((moveToVel E t s).pos)
              (vscale dtQ (vscale E.damp ((moveToVel E t s).vel))) := by
      intro s
      rfl
    have hvel1 : (move_to_robot E t r).vel = (0, 0) := by
      rw [hstepVel, hv0]
      simp [vscale]
    have hpos1 : (move_to_robot E t r).pos = r.pos := by
      rw [hstepPos, hv0, hveq0]
      simp [vscale, vadd]
    have hlt1 : (t.1 - (move_to_robot E t r).pos.1) * (t.1 - (move_to_robot E t r).pos.1)
        + (t.2 - (move_to_robot E t r).pos.2) * (t.2 - (move_to_robot E t r).pos.2)
        < (1 / 2 : ℚ) ^ 2 := by
      rw [hpos1]
      exact hlt
    have hv0x : (moveToVel E t (move_to_robot E t r)).vel = (0, 0) := by
      unfold moveToVel
      dsimp only
      simp only [unrotV, vsub, sqnorm, dotV]
      rw [if_pos hlt1]
    have hvel2 : (move_to_robot E t (move_to_robot E t r)).vel = (0, 0) := by
      rw [hstepVel, hv0x]
      simp [vscale]
    exact ⟨hv0, hvel1, hvel2⟩

theorem move_to_spec_witness :
    (0 : ℚ) < 5 ∧
    5 * trigEnv.cos ((moveToVel trigEnv (3, 4) (robotAt (0, 0))).angle)
      = (3, 4).1 - (robotAt ((0 : ℚ), (0 : ℚ))).pos.1 :=
  ⟨by norm_num,
   (move_to_spec trigEnv (robotAt (0, 0)) (3, 4) 5 3 (-4) 7
      (by norm_num [trigEnv, robotAt]) (by norm_num [trigEnv, robotAt])
      (by norm_num [trigEnv, robotAt]) (by norm_num)
      (by norm_num [robotAt]) (by norm_num [trigEnv, robotAt])
      (by norm_num [trigEnv, robotAt]) (by norm_num [trigEnv, robotAt])
      (by norm_num [trigEnv, robotAt]) (by norm_num [trigEnv, robotAt])).1.1⟩

/-- C6 counterexample: at squared distance exactly 0.25 (which does not
exceed 0.25) the code drives at speed 10 instead of stopping: the stop
branch requires the squared distance to be strictly below 0.5². -/
theorem move_to_boundary_cx :
    sqnorm (vsub ((1 / 2 : ℚ), (0 : ℚ)) (robotAt (0, 0)).pos) = (1 / 2 : ℚ) ^ 2 ∧
    (moveToVel oneEnv (1 / 2, 0) (robotAt (0, 0))).vel = ((10 : ℚ), (0 : ℚ)) ∧
    (moveToVel oneEnv (1 / 2, 0) (robotAt (0, 0))).vel ≠ ((0 : ℚ), (0 : ℚ)) := by
  have hv : (moveToVel oneEnv (1 / 2, 0) (robotAt (0, 0))).vel = ((10 : ℚ), (0 : ℚ)) := by
    norm_num [moveToVel, oneEnv, robotAt, sqnorm, vsub, unrotV, dotV, rotV]
  refine ⟨by norm_num [sqnorm, vsub, robotAt], hv, by rw [hv]; simp⟩

end Swarm
